import Mathlib

/-!
Verification of the rusty_poker board synchronization engine against its
specification.  The engine (Board State Machine, Board Actor, Connection Hub,
Session Gateway) is described by the specification; the repository sources
shipped here contain the frontend (`src/routes/+page.svelte`,
`src/routes/register/+page.server.ts`) and build plumbing.  The engine
definitions below are therefore modelled from the spec; the register form
action is translated from the TypeScript source.
-/

/-- Modelled from the spec: the fixed ordered voting scale {1,2,3,5,8,13}
(also the `values` constant of `src/routes/+page.svelte`). -/
def scale : List Nat := [1, 2, 3, 5, 8, 13]

/-- Modelled from the spec: a Vote is a tagged value, either an abstention or
one of the numeric estimates of the fixed scale. -/
inductive Vote where
  | Abstain : Vote
  | Estimate : Nat → Vote
deriving DecidableEq

/-- Modelled from the spec: whether a vote is a non-abstain vote (the `voted`
flag of a snapshot entry). -/
def isVoted : Vote → Bool
  | Vote.Abstain => false
  | Vote.Estimate _ => true

/-- Modelled from the spec: the numeric value of a vote, if any. -/
def voteValue : Vote → Option Nat
  | Vote.Abstain => none
  | Vote.Estimate n => some n

/-- Modelled from the spec: a Participant has a name (unique within a board),
a current vote, and a connection-liveness flag. -/
structure Participant where
  name : String
  vote : Vote
  connected : Bool
deriving DecidableEq

/-- Modelled from the spec: a Board owns a participant registry (mapping
name to participant) and a revealed/hidden flag. -/
structure Board where
  participants : List Participant
  revealed : Bool
deriving DecidableEq

/-- Modelled from the spec: the initial board state, `Open` with an empty
registry. -/
def emptyBoard : Board := { participants := [], revealed := false }

/-- Modelled from the spec: the error taxonomy of the engine. -/
inductive BoardError where
  | InvalidState : BoardError
  | EmptyBoard : BoardError
  | MalformedCommand : BoardError
  | Overloaded : BoardError
deriving DecidableEq

/-- Modelled from the spec: insert or update the registry entry for `name`
with the given vote, creating the entry on first submission. -/
def upsert : List Participant → String → Vote → List Participant
  | [], name, v => [{ name := name, vote := v, connected := true }]
  | p :: ps, name, v =>
      if p.name = name then { p with vote := v } :: ps
      else p :: upsert ps name v

/-- Modelled from the spec: `submitVote(name, vote)` is valid only while
`Open`; it inserts/updates the entry for `name`; it fails with
`InvalidState` while `Revealed`. -/
def submitVote (b : Board) (name : String) (v : Vote) : Except BoardError Board :=
  if b.revealed then Except.error BoardError.InvalidState
  else Except.ok { b with participants := upsert b.participants name v }

/-- Modelled from the spec: whether at least one participant has a
non-abstain vote. -/
def hasVote (b : Board) : Bool :=
  b.participants.any (fun p => isVoted p.vote)

/-- Modelled from the spec: `reveal()` is valid only in `Open` with at least
one non-abstain vote; it fails with `InvalidState` if already revealed and
with `EmptyBoard` if no votes exist. -/
def reveal (b : Board) : Except BoardError Board :=
  if b.revealed then Except.error BoardError.InvalidState
  else if hasVote b then Except.ok { b with revealed := true }
  else Except.error BoardError.EmptyBoard

/-- Modelled from the spec: `reset()` is valid only in `Revealed`; it clears
every vote to `Abstain` and transitions back to `Open`; it fails with
`InvalidState` while `Open`. -/
def reset (b : Board) : Except BoardError Board :=
  if b.revealed then
    Except.ok { participants := b.participants.map (fun p => { p with vote := Vote.Abstain }),
                revealed := false }
  else Except.error BoardError.InvalidState

/-- Modelled from the spec: one entry of the snapshot's participant list:
name, whether the participant has voted, and the vote value if revealed
(null otherwise — hidden values never leak). -/
structure SnapshotEntry where
  name : String
  voted : Bool
  vote : Option Nat
deriving DecidableEq

/-- Modelled from the spec: aggregate statistics computed on reveal: count,
mean, and a distribution histogram over the fixed scale. -/
structure BoardStats where
  count : Nat
  mean : ℚ
  histogram : List (Nat × Nat)
deriving DecidableEq

/-- Modelled from the spec: the list of numeric vote values on a board. -/
def votes (b : Board) : List Nat :=
  b.participants.filterMap (fun p => voteValue p.vote)

/-- Modelled from the spec: the statistics of a board: count of numeric
votes, their mean, and the histogram over the fixed scale. -/
def boardStats (b : Board) : BoardStats :=
  { count := (votes b).length,
    mean := ((votes b).sum : ℚ) / ((votes b).length : ℚ),
    histogram := scale.map (fun v => (v, ((votes b).filter (fun w => w = v)).length)) }

/-- Modelled from the spec: the projection of one participant into a
snapshot entry: the vote value is exposed only when revealed. -/
def snapshotEntry (revealed : Bool) (p : Participant) : SnapshotEntry :=
  { name := p.name,
    voted := isVoted p.vote,
    vote := if revealed then voteValue p.vote else none }

/-- Modelled from the spec: a Snapshot is the read-only projection of a
board sent to clients: participant list, `voting_complete` flag, and
statistics when revealed. -/
structure Snapshot where
  participants : List SnapshotEntry
  voting_complete : Bool
  stats : Option BoardStats
deriving DecidableEq

/-- Modelled from the spec: `snapshot()` is the pure projection of a board:
participant entries, `voting_complete` mirroring the revealed flag, and
statistics exactly when revealed. -/
def snapshot (b : Board) : Snapshot :=
  { participants := b.participants.map (snapshotEntry b.revealed),
    voting_complete := b.revealed,
    stats := if b.revealed then some (boardStats b) else none }

/-- Modelled from the spec: the command variants dispatched through the
Board Actor, plus the read-only snapshot query. -/
inductive Command where
  | submit : String → Vote → Command
  | reveal : Command
  | reset : Command
  | query : Command

/-- Modelled from the spec: run one command against the state machine. -/
def runCommand (b : Board) : Command → Except BoardError Board
  | Command.submit name v => submitVote b name v
  | Command.reveal => reveal b
  | Command.reset => reset b
  | Command.query => Except.ok b

/-- Modelled from the spec: the Board Actor applies a command atomically: on
success the board advances, on failure the error is reported to the
offending client and the board is unaffected. -/
def applyCommand (b : Board) (c : Command) : Board × Option BoardError :=
  match runCommand b c with
  | Except.ok b' => (b', none)
  | Except.error e => (b, some e)

/-- Modelled from the spec: apply a sequence of vote submissions through the
actor, in serialization order. -/
def applyVotes (b : Board) : List (String × Vote) → Board
  | [] => b
  | nv :: rest => applyVotes (applyCommand b (Command.submit nv.1 nv.2)).1 rest

/-- Look up the current vote recorded for a name on a board. -/
def lookupVote (b : Board) (name : String) : Option Vote :=
  (b.participants.find? (fun p => p.name = name)).map (fun p => p.vote)

/-- The last vote submitted under `name` in a sequence, if any: later
entries shadow earlier ones. -/
def lastVote : List (String × Vote) → String → Option Vote
  | [], _ => none
  | nv :: rest, name =>
      match lastVote rest name with
      | some v => some v
      | none => if nv.1 = name then some nv.2 else none

/-- Modelled from the spec: a Subscription is an ephemeral record
`(connectionId, boardId, participantName)` owned by the Connection Hub. -/
structure Subscription where
  connectionId : Nat
  boardId : String
  participantName : String
deriving DecidableEq

/-- Modelled from the spec: the state touched by the Connection Hub for one
board: the board itself and the live subscription set. -/
structure HubState where
  board : Board
  subs : List Subscription
deriving DecidableEq

/-- Modelled from the spec: mark the registry entry for `name` with the
given connection-liveness flag, leaving vote and identity untouched. -/
def setConnected (b : Board) (name : String) (c : Bool) : Board :=
  { b with participants :=
      b.participants.map (fun p => if p.name = name then { p with connected := c } else p) }

/-- Modelled from the spec: `unsubscribe(connectionId)` removes the
subscription and marks the corresponding participant `connected=false`,
retaining vote and identity. -/
def unsubscribe (s : HubState) (cid : Nat) : HubState :=
  match s.subs.find? (fun t => t.connectionId == cid) with
  | none => s
  | some sub =>
      { board := setConnected s.board sub.participantName false,
        subs := s.subs.filter (fun t => !(t.connectionId == cid)) }

/-- Modelled from the spec: the inbound wire values the Session Gateway may
receive, a model of JSON frames. -/
inductive JsonValue where
  | num : Int → JsonValue
  | str : String → JsonValue
  | bool : Bool → JsonValue
  | null : JsonValue
  | arr : List JsonValue → JsonValue
  | obj : List (String × JsonValue) → JsonValue

/-- The fixed scale as wire integers. -/
def scaleInt : List Int := [1, 2, 3, 5, 8, 13]

/-- Modelled from the spec: decode a wire vote integer: `0` means abstain,
other values must belong to the fixed scale. -/
def voteOfInt (n : Int) : Option Vote :=
  if n = 0 then some Vote.Abstain
  else if n ∈ scaleInt then some (Vote.Estimate n.toNat)
  else none

/-- Modelled from the spec: parse an inbound client frame: it is accepted as
a vote command exactly when it has the shape
`\x7b"ParticipantVoted": \x7b"vote": <int>\x7d\x7d` with a legal vote
integer; any other shape is a `MalformedCommand` protocol error. -/
def parseCommand (j : JsonValue) : Except BoardError Vote :=
  match j with
  | JsonValue.obj [("ParticipantVoted", JsonValue.obj [("vote", JsonValue.num n)])] =>
      match voteOfInt n with
      | some v => Except.ok v
      | none => Except.error BoardError.MalformedCommand
  | _ => Except.error BoardError.MalformedCommand

/-- Modelled from the spec: the Session Gateway handles one inbound frame
from the connection of participant `name`: a parsed vote is forwarded to the
actor as `submitVote`; a malformed payload yields an error frame to that
client while the connection stays open and the board is unchanged.  The
result is the new board, whether the connection stays open, and the error
reported to the client, if any. -/
def handleFrame (b : Board) (name : String) (j : JsonValue) :
    Board × Bool × Option BoardError :=
  match parseCommand j with
  | Except.ok v =>
      let r := applyCommand b (Command.submit name v)
      (r.1, true, r.2)
  | Except.error e => (b, true, some e)

/-- The shape condition of the spec for an accepted inbound frame: the exact
`ParticipantVoted` object carrying an integer that is zero or on the scale. -/
def isVoteFrame (j : JsonValue) : Prop :=
  ∃ n : Int,
    j = JsonValue.obj [("ParticipantVoted", JsonValue.obj [("vote", JsonValue.num n)])] ∧
    (n = 0 ∨ n ∈ scaleInt)

/-- The result of the register form action: the value stored in the
`session-user` cookie and the redirect issued. -/
structure RegisterResult where
  cookie : String
  redirectStatus : Nat
  redirectLocation : String
deriving DecidableEq

/-- `formData.get(key)` of the register action: the first entry under `key`,
if any (translated from `src/frontend/src/routes/register/+page.server.ts`). -/
def formGet (form : List (String × String)) (key : String) : Option String :=
  (form.find? (fun e => e.1 = key)).map (fun e => e.2)

/-- The register form action translated from
`src/frontend/src/routes/register/+page.server.ts`: it sets the
`session-user` cookie to `data.get('name')?.toString() || ''` (the empty
string when the field is absent or empty, since `||` treats the empty
string as falsy) and throws a 307 redirect to `/`. -/
def register (form : List (String × String)) : RegisterResult :=
  { cookie :=
      match formGet form "name" with
      | some s => if s = "" then "" else s
      | none => "",
    redirectStatus := 307,
    redirectLocation := "/" }

/-! ## Helper lemmas -/

/-- Mapping a function that ignores the `connected` flag over a registry is
unaffected by toggling a participant's connection flag. -/
theorem map_after_setConnected {α : Type} (f : Participant → α)
    (hf : ∀ p c, f { p with connected := c } = f p) (n : String) (c : Bool)
    (ps : List Participant) :
    (ps.map (fun p => if p.name = n then { p with connected := c } else p)).map f =
      ps.map f := by
  induction ps with
  | nil => rfl
  | cons p ps ih =>
      by_cases h : p.name = n
      · simp only [List.map_cons, ih, if_pos h, hf]
      · simp only [List.map_cons, ih, if_neg h]

/-- Toggling a connection flag does not change the revealed flag. -/
theorem setConnected_revealed (b : Board) (n : String) (c : Bool) :
    (setConnected b n c).revealed = b.revealed := rfl

/-- The numeric vote values of a board are insensitive to connection
flags. -/
theorem votes_setConnected (b : Board) (n : String) (c : Bool) :
    votes (setConnected b n c) = votes b := by
  unfold votes setConnected
  simp only
  induction b.participants with
  | nil => rfl
  | cons p ps ih =>
      by_cases h : p.name = n
      · simp only [List.map_cons, List.filterMap_cons, if_pos h, ih]
      · simp only [List.map_cons, List.filterMap_cons, if_neg h, ih]

/-- The statistics of a board are insensitive to connection flags. -/
theorem boardStats_setConnected (b : Board) (n : String) (c : Bool) :
    boardStats (setConnected b n c) = boardStats b := by
  unfold boardStats
  rw [votes_setConnected]

/-- A snapshot is insensitive to connection flags. -/
theorem snapshot_setConnected (b : Board) (n : String) (c : Bool) :
    snapshot (setConnected b n c) = snapshot b := by
  unfold snapshot
  rw [boardStats_setConnected, setConnected_revealed]
  congr 1
  exact map_after_setConnected (snapshotEntry b.revealed) (fun p c => rfl) n c b.participants

/-- Submitting a vote while `Open` succeeds and performs the registry
upsert. -/
theorem applyCommand_submit_open (b : Board) (h : b.revealed = false)
    (name : String) (v : Vote) :
    applyCommand b (Command.submit name v) =
      ({ b with participants := upsert b.participants name v }, none) := by
  simp [applyCommand, runCommand, submitVote, h]

/-- The vote recorded after an upsert: the upserted name holds the new vote,
every other name is untouched. -/
theorem find?_upsert (ps : List Participant) (n : String) (v : Vote) (n' : String) :
    ((upsert ps n v).find? (fun p => p.name = n')).map (fun p => p.vote) =
      if n' = n then some v
      else (ps.find? (fun p => p.name = n')).map (fun p => p.vote) := by
  induction ps with
  | nil =>
      by_cases h : n' = n
      · simp [upsert, List.find?, h]
      · have h' : ¬ n = n' := fun hh => h hh.symm
        simp [upsert, List.find?, h, h']
  | cons p ps ih =>
      by_cases hp : p.name = n
      · by_cases h : n' = n
        · simp [upsert, hp, List.find?, h]
        · have h' : ¬ n = n' := fun hh => h hh.symm
          have hpn : ¬ p.name = n' := fun hh => h (hh.symm.trans hp)
          simp [upsert, hp, List.find?, hpn, h, h']
      · by_cases hpn : p.name = n'
        · have h : ¬ n' = n := fun hh => hp (hpn.trans hh)
          simp [upsert, hp, List.find?, hpn, h]
        · simp [upsert, hp, List.find?, hpn, ih]

/-! ## Claim theorems -/

/-- C1: while the board is not revealed, the snapshot carries a null vote
for every participant — voted or not — and only the `voted` flag
distinguishes them; `voting_complete` is false. -/
theorem snapshot_hides_votes (b : Board) (h : b.revealed = false) :
    (snapshot b).voting_complete = false ∧
    (snapshot b).participants =
      b.participants.map (fun p => { name := p.name, voted := isVoted p.vote, vote := none }) ∧
    ∀ e ∈ (snapshot b).participants, e.vote = none := by
  refine ⟨by simp [snapshot, h], by simp [snapshot, snapshotEntry, h], ?_⟩
  intro e he
  simp only [snapshot, h, List.mem_map] at he
  obtain ⟨p, _, rfl⟩ := he
  simp [snapshotEntry]

/-- C1 witness: a board with one voted participant and one abstainer, not
yet revealed, snapshots to null votes with only the `voted` flags set. -/
theorem snapshot_hides_votes_witness :
    (snapshot { participants := [{ name := "alice", vote := Vote.Estimate 5, connected := true },
                                 { name := "bob", vote := Vote.Abstain, connected := true }],
                revealed := false }).voting_complete = false ∧
    (snapshot { participants := [{ name := "alice", vote := Vote.Estimate 5, connected := true },
                                 { name := "bob", vote := Vote.Abstain, connected := true }],
                revealed := false }).participants =
      [{ name := "alice", voted := true, vote := none },
       { name := "bob", voted := false, vote := none }] := by
  have h := snapshot_hides_votes
    { participants := [{ name := "alice", vote := Vote.Estimate 5, connected := true },
                       { name := "bob", vote := Vote.Abstain, connected := true }],
      revealed := false } rfl
  exact ⟨h.1, h.2.1.trans (by decide)⟩

/-- C2: `reveal` succeeds exactly on an open board holding at least one
non-abstain vote, in which case it only flips the revealed flag; on an
already revealed board it fails with `InvalidState`, on an open board with
no votes it fails with `EmptyBoard`, and in either failure the actor leaves
the board unchanged. -/
theorem reveal_spec (b : Board) :
    ((∃ b', reveal b = Except.ok b') ↔ b.revealed = false ∧ hasVote b = true) ∧
    (∀ b', reveal b = Except.ok b' → b' = { b with revealed := true }) ∧
    (b.revealed = true → applyCommand b Command.reveal = (b, some BoardError.InvalidState)) ∧
    (b.revealed = false → hasVote b = false →
      applyCommand b Command.reveal = (b, some BoardError.EmptyBoard)) := by
  rcases hr : b.revealed
  · rcases hv : hasVote b
    · refine ⟨⟨?_, ?_⟩, ?_, ?_, ?_⟩ <;>
        simp [reveal, applyCommand, runCommand, hr, hv]
    · refine ⟨⟨?_, ?_⟩, ?_, ?_, ?_⟩ <;>
        simp [reveal, applyCommand, runCommand, hr, hv]
  · refine ⟨⟨?_, ?_⟩, ?_, ?_, ?_⟩ <;>
      simp [reveal, applyCommand, runCommand, hr]

/-- C2 witness: reveal succeeds on an open board with one vote, fails with
`InvalidState` on a revealed board and with `EmptyBoard` on an empty open
board, leaving the failing boards unchanged. -/
theorem reveal_spec_witness :
    (∃ b', reveal { participants := [{ name := "alice", vote := Vote.Estimate 5, connected := true }],
                    revealed := false } = Except.ok b') ∧
    applyCommand { participants := ([] : List Participant), revealed := true } Command.reveal =
      ({ participants := [], revealed := true }, some BoardError.InvalidState) ∧
    applyCommand emptyBoard Command.reveal = (emptyBoard, some BoardError.EmptyBoard) :=
  ⟨(reveal_spec _).1.mpr ⟨rfl, rfl⟩,
   (reveal_spec _).2.2.1 rfl,
   (reveal_spec emptyBoard).2.2.2 rfl rfl⟩

/-- C3: while the board is revealed, every `submitVote` fails with
`InvalidState` and the actor leaves the board — registry and revealed flag —
unchanged. -/
theorem submitVote_revealed_rejected (b : Board) (h : b.revealed = true)
    (name : String) (v : Vote) :
    submitVote b name v = Except.error BoardError.InvalidState ∧
    applyCommand b (Command.submit name v) = (b, some BoardError.InvalidState) := by
  constructor
  · simp [submitVote, h]
  · simp [applyCommand, runCommand, submitVote, h]

/-- C3 witness: a vote submitted to a concrete revealed board is rejected
with `InvalidState` and the board is unchanged. -/
theorem submitVote_revealed_rejected_witness :
    applyCommand { participants := [{ name := "alice", vote := Vote.Estimate 5, connected := true }],
                   revealed := true }
      (Command.submit "bob" (Vote.Estimate 3)) =
      ({ participants := [{ name := "alice", vote := Vote.Estimate 5, connected := true }],
         revealed := true }, some BoardError.InvalidState) :=
  (submitVote_revealed_rejected _ rfl "bob" (Vote.Estimate 3)).2

/-- C9: the snapshot query is total and pure: run through the actor it
never fails and returns the board unchanged. -/
theorem snapshot_query_pure (b : Board) :
    runCommand b Command.query = Except.ok b ∧
    applyCommand b Command.query = (b, none) :=
  ⟨rfl, rfl⟩

/-- C10: the register action always sets the `session-user` cookie to the
submitted `name` field (the empty string when absent) and ends in a 307
redirect to `/`. -/
theorem register_spec (form : List (String × String)) :
    (register form).redirectStatus = 307 ∧
    (register form).redirectLocation = "/" ∧
    (formGet form "name" = none → (register form).cookie = "") ∧
    (∀ s, formGet form "name" = some s → (register form).cookie = s) := by
  refine ⟨rfl, rfl, ?_, ?_⟩
  · intro h
    simp [register, h]
  · intro s h
    by_cases hs : s = ""
    · simp [register, h, hs]
    · simp [register, h, hs]

/-- C10 witness: a submitted name lands in the cookie, an absent field
yields the empty string, and both submissions redirect 307 to `/`. -/
theorem register_spec_witness :
    (register [("name", "alice")]).cookie = "alice" ∧
    (register ([] : List (String × String))).cookie = "" ∧
    (register [("name", "alice")]).redirectStatus = 307 ∧
    (register [("name", "alice")]).redirectLocation = "/" :=
  ⟨(register_spec [("name", "alice")]).2.2.2 "alice" rfl,
   (register_spec []).2.2.1 rfl,
   (register_spec [("name", "alice")]).1,
   (register_spec [("name", "alice")]).2.1⟩

/-- Submitting a vote on an open board updates exactly the submitted name's
recorded vote. -/
theorem lookupVote_submit (b : Board) (h : b.revealed = false)
    (n : String) (v : Vote) (n' : String) :
    lookupVote (applyCommand b (Command.submit n v)).1 n' =
      if n' = n then some v else lookupVote b n' := by
  rw [applyCommand_submit_open b h n v]
  exact find?_upsert b.participants n v n'

/-- For every vote sequence applied to an open board, the recorded vote of a
name is the last vote submitted under it, or its prior vote if the sequence
never mentions it. -/
theorem applyVotes_last_wins (name : String) :
    ∀ (l : List (String × Vote)) (b : Board), b.revealed = false →
      lookupVote (applyVotes b l) name =
        match lastVote l name with
        | some v => some v
        | none => lookupVote b name := by
  intro l
  induction l with
  | nil => intro b h; rfl
  | cons nv rest ih =>
      intro b h
      have hstep := applyCommand_submit_open b h nv.1 nv.2
      have hrev : ((applyCommand b (Command.submit nv.1 nv.2)).1).revealed = false := by
        rw [hstep]
        exact h
      have hih := ih (applyCommand b (Command.submit nv.1 nv.2)).1 hrev
      have hlook := lookupVote_submit b h nv.1 nv.2 name
      simp only [applyVotes]
      rw [hih]
      rcases hl : lastVote rest name with _ | v
      · simp only [lastVote, hl, hlook]
        by_cases hnn : nv.1 = name
        · simp [hnn]
        · have hnn' : ¬ name = nv.1 := fun hh => hnn hh.symm
          simp [hnn, hnn']
      · simp only [lastVote, hl]

/-- C4: applied to an open board, a sequence of `submitVote` calls leaves
each name mapped to exactly the last vote submitted under it (created on
first submission), and a name never mentioned keeps its prior entry. -/
theorem submitVote_sequence_last_wins (b : Board) (h : b.revealed = false)
    (l : List (String × Vote)) (name : String) :
    lookupVote (applyVotes b l) name =
      match lastVote l name with
      | some v => some v
      | none => lookupVote b name :=
  applyVotes_last_wins name l b h

/-- C4 witness: submitting votes A, B, A' under one name on a fresh board
leaves the registry holding A'. -/
theorem submitVote_sequence_last_wins_witness :
    lookupVote (applyVotes emptyBoard
      [("alice", Vote.Estimate 1), ("alice", Vote.Estimate 2), ("alice", Vote.Estimate 3)])
      "alice" = some (Vote.Estimate 3) := by
  have h := submitVote_sequence_last_wins emptyBoard rfl
    [("alice", Vote.Estimate 1), ("alice", Vote.Estimate 2), ("alice", Vote.Estimate 3)] "alice"
  exact h.trans (by decide)

/-- C5: `reset` succeeds exactly on a revealed board: it clears every vote
to `Abstain` and reopens the board, so the following snapshot shows every
participant unvoted with a null vote and `voting_complete = false`; on an
open board it fails with `InvalidState`. -/
theorem reset_spec (b : Board) :
    (b.revealed = false → applyCommand b Command.reset = (b, some BoardError.InvalidState)) ∧
    (b.revealed = true →
      reset b = Except.ok
        { participants := b.participants.map (fun p => { p with vote := Vote.Abstain }),
          revealed := false } ∧
      (snapshot (applyCommand b Command.reset).1).voting_complete = false ∧
      ∀ e ∈ (snapshot (applyCommand b Command.reset).1).participants,
        e.voted = false ∧ e.vote = none) := by
  rcases hr : b.revealed
  · refine ⟨fun _ => ?_, fun hc => absurd hc (by simp [hr])⟩
    simp [applyCommand, runCommand, reset, hr]
  · refine ⟨fun hc => absurd hc (by simp [hr]), fun _ => ⟨?_, ?_, ?_⟩⟩
    · simp [reset, hr]
    · simp [applyCommand, runCommand, reset, hr, snapshot]
    · intro e he
      simp only [applyCommand, runCommand, reset, hr, if_true, snapshot, List.map_map,
        List.mem_map, Function.comp] at he
      obtain ⟨p, _, rfl⟩ := he
      simp [snapshotEntry, isVoted]

/-- C5 witness: resetting a concrete revealed board clears the vote and
reopens it; resetting an open board fails with `InvalidState`. -/
theorem reset_spec_witness :
    applyCommand emptyBoard Command.reset = (emptyBoard, some BoardError.InvalidState) ∧
    reset { participants := [{ name := "alice", vote := Vote.Estimate 5, connected := true }],
            revealed := true } =
      Except.ok { participants := [{ name := "alice", vote := Vote.Abstain, connected := true }],
                  revealed := false } ∧
    (snapshot (applyCommand
        { participants := [{ name := "alice", vote := Vote.Estimate 5, connected := true }],
          revealed := true } Command.reset).1).voting_complete = false :=
  ⟨(reset_spec emptyBoard).1 rfl,
   (((reset_spec _).2 rfl).1).trans rfl,
   ((reset_spec _).2 rfl).2.1⟩

/-- C6: on a fresh board, submitting `Estimate 5` under any name and then
revealing yields a snapshot whose histogram counts exactly one vote at scale
value 5 and none anywhere else. -/
theorem estimate5_histogram (name : String) :
    ∃ b', reveal (applyCommand emptyBoard (Command.submit name (Vote.Estimate 5))).1 =
        Except.ok b' ∧
      ((snapshot b').stats).map (fun s => s.histogram) =
        some [(1, 0), (2, 0), (3, 0), (5, 1), (8, 0), (13, 0)] ∧
      (snapshot b').voting_complete = true :=
  ⟨{ participants := [{ name := name, vote := Vote.Estimate 5, connected := true }],
     revealed := true }, rfl, rfl, rfl⟩

/-- C7: `unsubscribe` removes exactly the subscriptions of the given
connection, never changes any participant's name or vote or the snapshot,
and flips the found subscription's participant to `connected = false`. -/
theorem unsubscribe_spec (s : HubState) (cid : Nat) :
    (unsubscribe s cid).subs = s.subs.filter (fun t => !(t.connectionId == cid)) ∧
    (unsubscribe s cid).board.participants.map (fun p => (p.name, p.vote)) =
      s.board.participants.map (fun p => (p.name, p.vote)) ∧
    snapshot (unsubscribe s cid).board = snapshot s.board ∧
    ∀ sub, s.subs.find? (fun t => t.connectionId == cid) = some sub →
      ∀ q ∈ (unsubscribe s cid).board.participants,
        q.name = sub.participantName → q.connected = false := by
  rcases hf : s.subs.find? (fun t => t.connectionId == cid) with _ | sub
  · have hall := List.find?_eq_none.mp hf
    refine ⟨?_, ?_, ?_, ?_⟩
    · simp only [unsubscribe, hf]
      refine (List.filter_eq_self.mpr ?_).symm
      intro a ha
      simpa using hall a ha
    · simp only [unsubscribe, hf]
    · simp only [unsubscribe, hf]
    · intro sub hsub
      rw [hf] at hsub
      cases hsub
  · refine ⟨?_, ?_, ?_, ?_⟩
    · simp only [unsubscribe, hf]
    · simp only [unsubscribe, hf]
      exact map_after_setConnected (fun p => (p.name, p.vote)) (fun p c => rfl) _ _ _
    · simp only [unsubscribe, hf]
      exact snapshot_setConnected _ _ _
    · intro sub' hsub q hq hname
      rw [hf] at hsub
      cases hsub
      simp only [unsubscribe, hf, setConnected, List.mem_map] at hq
      obtain ⟨p, _, rfl⟩ := hq
      by_cases hpn : p.name = sub.participantName
      · simp [hpn]
      · rw [if_neg hpn] at hname ⊢
        exact absurd hname hpn

/-- C8: an inbound frame is accepted as a vote command exactly when it is a
`ParticipantVoted` object carrying an integer that is zero or on the fixed
scale; every other payload is answered with a `MalformedCommand` error
frame while the connection stays open and the board is unchanged. -/
theorem inbound_frame_spec (j : JsonValue) :
    ((∃ v, parseCommand j = Except.ok v) ↔ isVoteFrame j) ∧
    ∀ e, parseCommand j = Except.error e →
      e = BoardError.MalformedCommand ∧
      ∀ (b : Board) (name : String),
        handleFrame b name j = (b, true, some BoardError.MalformedCommand) := by
  constructor
  · constructor
    · rintro ⟨v, hv⟩
      rw [parseCommand.eq_def] at hv
      split at hv
      · rename_i n
        rcases hvi : voteOfInt n with _ | w
        · simp [hvi] at hv
        · refine ⟨n, rfl, ?_⟩
          unfold voteOfInt at hvi
          split_ifs at hvi with h0 hs
          · exact Or.inl h0
          · exact Or.inr hs
      · simp at hv
    · rintro ⟨n, rfl, hn⟩
      rcases hn with h0 | hs
      · subst h0
        exact ⟨Vote.Abstain, by simp [parseCommand, voteOfInt]⟩
      · have hn0 : ¬ n = 0 := by
          intro h
          rw [h] at hs
          simp [scaleInt] at hs
        exact ⟨Vote.Estimate n.toNat, by simp [parseCommand, voteOfInt, hn0, hs]⟩
  · intro e he
    have heM : e = BoardError.MalformedCommand := by
      rw [parseCommand.eq_def] at he
      split at he
      · rename_i n
        rcases hvi : voteOfInt n with _ | w
        · simp [hvi] at he
          exact he.symm
        · simp [hvi] at he
      · simp at he
        exact he.symm
    subst heM
    refine ⟨rfl, fun b name => ?_⟩
    simp [handleFrame, he]

/-- C8 witness: the canonical vote frame with value 5 is accepted, while a
plain string frame is answered with `MalformedCommand`, the connection kept
open and the board untouched. -/
theorem inbound_frame_spec_witness :
    isVoteFrame (JsonValue.obj [("ParticipantVoted", JsonValue.obj [("vote", JsonValue.num 5)])]) ∧
    handleFrame emptyBoard "alice" (JsonValue.str "hello") =
      (emptyBoard, true, some BoardError.MalformedCommand) :=
  ⟨(inbound_frame_spec _).1.mp ⟨Vote.Estimate 5, rfl⟩,
   ((inbound_frame_spec (JsonValue.str "hello")).2 BoardError.MalformedCommand rfl).2
     emptyBoard "alice"⟩

/-- C7 witness: dropping the only connection of a concrete subscriber
empties the subscription set, leaves the snapshot unchanged, and flips that
participant's `connected` flag to false. -/
theorem unsubscribe_spec_witness :
    (unsubscribe { board := { participants := [{ name := "alice", vote := Vote.Estimate 3,
                                                 connected := true }],
                              revealed := false },
                   subs := [{ connectionId := 1, boardId := "1", participantName := "alice" }] }
        1).subs = [] ∧
    snapshot (unsubscribe { board := { participants := [{ name := "alice", vote := Vote.Estimate 3,
                                                          connected := true }],
                                       revealed := false },
                            subs := [{ connectionId := 1, boardId := "1",
                                       participantName := "alice" }] } 1).board =
      snapshot { participants := [{ name := "alice", vote := Vote.Estimate 3, connected := true }],
                 revealed := false } ∧
    ({ name := "alice", vote := Vote.Estimate 3, connected := false } : Participant).connected =
      false := by
  have h := unsubscribe_spec
    { board := { participants := [{ name := "alice", vote := Vote.Estimate 3, connected := true }],
                 revealed := false },
      subs := [{ connectionId := 1, boardId := "1", participantName := "alice" }] } 1
  refine ⟨h.1.trans (by decide), h.2.2.1, ?_⟩
  exact h.2.2.2 { connectionId := 1, boardId := "1", participantName := "alice" } (by decide)
    { name := "alice", vote := Vote.Estimate 3, connected := false } (by decide) rfl
